import Mathlib

/-!
Shallow embedding of `resources/fetch_podcast.py`: a script that fetches a
podcast RSS feed, normalizes each entry into a canonical Episode record
(date normalization, HTML stripping, duration parsing, id derivation,
audio-url extraction), truncates/filters/sorts the episode list and writes
a JSON payload.

Python strings are modelled as Lean `String`; absent values (`None` /
missing dict keys) as `Option`; Python exceptions as `Except String`.
Python string helpers (`strip`, `split`, `replace`, `isdigit`) are
re-implemented over `List Char` with ASCII semantics (the script only ever
meets ASCII metacharacters in these positions).  External collaborators are
modelled as parameters or behavioural models, documented at each site.
-/

namespace FetchPodcast

/-- One enclosure of a feed entry: `enclosure.get("url")`. -/
structure Enclosure where
  url : Option String
deriving DecidableEq

/-- The value of `entry.get("itunes_duration")`: feedparser yields either an
integer or a string (absent is the surrounding `Option`). -/
inductive DurVal where
  | int (n : Int)
  | str (s : String)
deriving DecidableEq

/-- A raw feedparser entry: the loosely-typed dict the script reads with
`entry.get(...)`.  `published_parsed` / `updated_parsed` model
`time.struct_time` tuples as integer lists. -/
structure Entry where
  id : Option String := none
  guid : Option String := none
  title : Option String := none
  summary : Option String := none
  description : Option String := none
  link : Option String := none
  published : Option String := none
  published_parsed : Option (List Int) := none
  updated : Option String := none
  updated_parsed : Option (List Int) := none
  itunes_duration : Option DurVal := none
  enclosures : Option (List Enclosure) := none
deriving DecidableEq

/-- Python truthiness of an optional string: `None` and `""` are falsy. -/
def truthyStr : Option String → Bool
  | none => false
  | some s => !s.isEmpty

/-- Python truthiness of an optional list/tuple: `None` and `()` are falsy. -/
def truthyList {α : Type} : Option (List α) → Bool
  | none => false
  | some l => !l.isEmpty

/-- Python `a or b` on two optional strings. -/
def pyOrStr (a b : Option String) : Option String :=
  if truthyStr a then a else b

/-- Python `str.strip()` whitespace test (ASCII subset). -/
def pyIsSpace (c : Char) : Bool :=
  c == ' ' || c == '\t' || c == '\n' || c == '\r' || c == '\x0b' || c == '\x0c'

/-- Python `str.strip()` (ASCII-whitespace model). -/
def pyStrip (s : String) : String :=
  ⟨((s.data.dropWhile pyIsSpace).reverse.dropWhile pyIsSpace).reverse⟩

/-- Helper for `pySplit`. -/
def pySplitAux (sep : Char) : List Char → List Char → List String
  | [], cur => [String.mk cur.reverse]
  | c :: rest, cur =>
    if c = sep then String.mk cur.reverse :: pySplitAux sep rest []
    else pySplitAux sep rest (c :: cur)

/-- Python `str.split(sep)` for a single-character separator. -/
def pySplit (s : String) (sep : Char) : List String :=
  pySplitAux sep s.data []

/-- Helper for `pyReplace`; fuel is the length of the remaining input. -/
def pyReplaceAux (pat repl : List Char) : Nat → List Char → List Char
  | _, [] => []
  | 0, l => l
  | fuel + 1, c :: rest =>
    if pat.isPrefixOf (c :: rest) ∧ pat ≠ [] then
      repl ++ pyReplaceAux pat repl fuel ((c :: rest).drop pat.length)
    else c :: pyReplaceAux pat repl fuel rest

/-- Python `str.replace(pat, repl)`: all non-overlapping occurrences,
left to right (nonempty pattern, as used by the script). -/
def pyReplace (s pat repl : String) : String :=
  ⟨pyReplaceAux pat.data repl.data s.data.length s.data⟩

/-- Python `str.isdigit()` scoped to ASCII digits.  The real `isdigit`
also accepts non-decimal digit-property characters (e.g. `"²"`) that
`int` then rejects; that raising path is modelled separately by
`pyIsdigitE`/`pyIntE`/`parse_durationE` below and analyzed in the
totality theorem — on ASCII-decimal data the two models agree
(`parse_durationE_ascii`). -/
def isdigitB (s : String) : Bool :=
  !s.data.isEmpty && s.data.all Char.isDigit

/-- Decimal value of a digit string, `int(s)` for an `isdigit` string. -/
def natOfDigits (ds : List Char) : Nat :=
  ds.foldl (fun a c => a * 10 + (c.toNat - 48)) 0

/-- `int(s)` on a digit-only string. -/
def pyIntDigits (s : String) : Int :=
  (natOfDigits s.data : Int)

/-! ### `parse_duration` (fetch_podcast.py lines 75-98) -/

/-- `parse_duration`: absent → null; int → as-is; string → trim, empty →
null, all digits → seconds, else split on `:`, keep digit segments,
2 segments → m*60+s, 3 → h*3600+m*60+s, else null. -/
def parse_duration : Option DurVal → Option Int
  | none => none
  | some (.int n) => some n
  | some (.str s) =>
    let v := pyStrip s
    if v.isEmpty then none
    else if isdigitB v then some (pyIntDigits v)
    else
      let parts := (pySplit v ':').filter isdigitB
      if parts.isEmpty then none
      else
        match parts.map pyIntDigits with
        | [m, sec] => some (m * 60 + sec)
        | [h, m, sec] => some (h * 3600 + m * 60 + sec)
        | _ => none

/-! ### UTF-8 and SHA-256 (for `build_episode_id`)

`base.encode("utf-8")` and `hashlib.sha256(...).hexdigest()` re-implemented
over `Nat` bytes / 32-bit words (`% 2^32` where overflow matters). -/

/-- UTF-8 encoding of one code point. -/
def utf8Char (c : Char) : List Nat :=
  let n := c.toNat
  if n < 128 then [n]
  else if n < 2048 then [192 + n / 64, 128 + n % 64]
  else if n < 65536 then [224 + n / 4096, 128 + (n / 64) % 64, 128 + n % 64]
  else [240 + n / 262144, 128 + (n / 4096) % 64, 128 + (n / 64) % 64, 128 + n % 64]

/-- `s.encode("utf-8")` as a byte list. -/
def utf8Bytes (s : String) : List Nat :=
  (s.data.map utf8Char).flatten

def M32 : Nat := 4294967296

/-- 32-bit rotate right by `n`. -/
def rotr32 (n x : Nat) : Nat :=
  x / 2 ^ n + (x % 2 ^ n) * 2 ^ (32 - n)

def sha_sig0 (x : Nat) : Nat := (rotr32 7 x) ^^^ (rotr32 18 x) ^^^ (x / 2 ^ 3)

def sha_sig1 (x : Nat) : Nat := (rotr32 17 x) ^^^ (rotr32 19 x) ^^^ (x / 2 ^ 10)

def sha_Sig0 (x : Nat) : Nat := (rotr32 2 x) ^^^ (rotr32 13 x) ^^^ (rotr32 22 x)

def sha_Sig1 (x : Nat) : Nat := (rotr32 6 x) ^^^ (rotr32 11 x) ^^^ (rotr32 25 x)

def sha_ch (x y z : Nat) : Nat := (x &&& y) ^^^ ((x ^^^ 4294967295) &&& z)

def sha_maj (x y z : Nat) : Nat := (x &&& y) ^^^ (x &&& z) ^^^ (y &&& z)

def sha_k : List Nat :=
  [1116352408, 1899447441, 3049323471, 3921009573, 961987163, 1508970993,
   2453635748, 2870763221, 3624381080, 310598401, 607225278, 1426881987,
   1925078388, 2162078206, 2614888103, 3248222580, 3835390401, 4022224774,
   264347078, 604807628, 770255983, 1249150122, 1555081692, 1996064986,
   2554220882, 2821834349, 2952996808, 3210313671, 3336571891, 3584528711,
   113926993, 338241895, 666307205, 773529912, 1294757372, 1396182291,
   1695183700, 1986661051, 2177026350, 2456956037, 2730485921, 2820302411,
   3259730800, 3345764771, 3516065817, 3600352804, 4094571909, 275423344,
   430227734, 506948616, 659060556, 883997877, 958139571, 1322822218,
   1537002063, 1747873779, 1955562222, 2024104815, 2227730452, 2361852424,
   2428436474, 2756734187, 3204031479, 3329325298]

def sha_H0 : List Nat :=
  [1779033703, 3144134277, 1013904242, 2773480762, 1359893119, 2600822924,
   528734635, 1541459225]

/-- Big-endian 32-bit words from a byte list (length a multiple of 4). -/
def toWords : List Nat → List Nat
  | b1 :: b2 :: b3 :: b4 :: rest => (((b1 * 256 + b2) * 256 + b3) * 256 + b4) :: toWords rest
  | _ => []

/-- The 8-byte big-endian encoding of the bit length. -/
def lenBytes (n : Nat) : List Nat :=
  [n / 2 ^ 56 % 256, n / 2 ^ 48 % 256, n / 2 ^ 40 % 256, n / 2 ^ 32 % 256,
   n / 2 ^ 24 % 256, n / 2 ^ 16 % 256, n / 2 ^ 8 % 256, n % 256]

/-- SHA-256 padding: 0x80, zeros to 56 mod 64, 64-bit big-endian bit length. -/
def sha_pad (msg : List Nat) : List Nat :=
  let L := msg.length
  let z := (119 - L % 64) % 64
  msg ++ 128 :: List.replicate z 0 ++ lenBytes (L * 8)

/-- Message-schedule extension of the 16 block words to 64. -/
def sha_schedule (w16 : List Nat) : List Nat :=
  (List.range 48).foldl
    (fun w _ =>
      w ++ [(sha_sig1 (w.getD (w.length - 2) 0) + w.getD (w.length - 7) 0 +
             sha_sig0 (w.getD (w.length - 15) 0) + w.getD (w.length - 16) 0) % M32])
    w16

/-- One round of the SHA-256 compression loop. -/
def sha_round (st : List Nat) (kw : Nat × Nat) : List Nat :=
  match st with
  | [a, b, c, d, e, f, g, hh] =>
    let t1 := (hh + sha_Sig1 e + sha_ch e f g + kw.1 + kw.2) % M32
    let t2 := (sha_Sig0 a + sha_maj a b c) % M32
    [(t1 + t2) % M32, a, b, c, (d + t1) % M32, e, f, g]
  | st => st

/-- Compress one 64-byte block into the running hash state. -/
def sha_compress (h : List Nat) (block : List Nat) : List Nat :=
  let w := sha_schedule (toWords block)
  let final := (sha_k.zip w).foldl sha_round h
  (h.zip final).map (fun p => (p.1 + p.2) % M32)

/-- Split a byte list into 64-byte blocks (fuel-based, fuel ≥ length). -/
def sha_blocksAux : Nat → List Nat → List (List Nat)
  | 0, _ => []
  | _, [] => []
  | fuel + 1, l => l.take 64 :: sha_blocksAux fuel (l.drop 64)

def sha_blocks (l : List Nat) : List (List Nat) :=
  sha_blocksAux l.length l

/-- SHA-256 digest of a byte list, as eight 32-bit words. -/
def sha256_words (msg : List Nat) : List Nat :=
  (sha_blocks (sha_pad msg)).foldl sha_compress sha_H0

def hexDigit (n : Nat) : Char :=
  if n < 10 then Char.ofNat (48 + n) else Char.ofNat (87 + n)

def hex8 (w : Nat) : List Char :=
  (List.range 8).map (fun i => hexDigit (w / 2 ^ ((7 - i) * 4) % 16))

/-- `hashlib.sha256(msg).hexdigest()`. -/
def sha256hex (msg : List Nat) : String :=
  ⟨((sha256_words msg).map hex8).flatten⟩

/-! ### Datetime model

`datetime.datetime` modelled with integer fields and an optional UTC offset
in seconds (`none` = naive).  Calendar arithmetic uses the standard
proleptic-Gregorian day-count conversions. -/

structure PyDatetime where
  year : Int
  month : Int
  day : Int
  hour : Int
  minute : Int
  second : Int
  microsecond : Int
  tzOffset : Option Int
deriving DecidableEq

def isLeapYear (y : Int) : Bool :=
  y % 4 == 0 && (y % 100 != 0 || y % 400 == 0)

def daysInMonth (y m : Int) : Int :=
  if m = 2 then (if isLeapYear y then 29 else 28)
  else if m = 4 ∨ m = 6 ∨ m = 9 ∨ m = 11 then 30
  else 31

/-- The range checks of the `datetime` constructor
(`MINYEAR ≤ year ≤ MAXYEAR`, valid month/day, valid time of day). -/
def validDatetime (y mo d h mi s : Int) : Bool :=
  decide (1 ≤ y ∧ y ≤ 9999 ∧ 1 ≤ mo ∧ mo ≤ 12 ∧ 1 ≤ d ∧ d ≤ daysInMonth y mo ∧
    0 ≤ h ∧ h ≤ 23 ∧ 0 ≤ mi ∧ mi ≤ 59 ∧ 0 ≤ s ∧ s ≤ 59)

/-- `datetime(*comps[:6], tzinfo=timezone.utc)`: fewer than three
components is a `TypeError`; out-of-range components a `ValueError`
(`datetime` defaults hour/minute/second to 0). -/
def datetimeUTC (comps : List Int) : Except String PyDatetime :=
  match comps.take 6 with
  | [y, mo, d] => mkdt y mo d 0 0 0
  | [y, mo, d, h] => mkdt y mo d h 0 0
  | [y, mo, d, h, mi] => mkdt y mo d h mi 0
  | [y, mo, d, h, mi, s] => mkdt y mo d h mi s
  | _ => .error "TypeError"
where
  mkdt (y mo d h mi s : Int) : Except String PyDatetime :=
    if validDatetime y mo d h mi s then .ok ⟨y, mo, d, h, mi, s, 0, some 0⟩
    else .error "ValueError"

/-- Zero-pad a non-negative integer to `width` digits. -/
def padNum (width : Nat) (n : Int) : String :=
  let s := toString n.toNat
  ⟨List.replicate (width - s.length) '0' ++ s.data⟩

/-- `dt.isoformat()` for a UTC-aware datetime: microseconds printed only
when nonzero, offset rendered `+00:00`. -/
def isoformatUTC (dt : PyDatetime) : String :=
  padNum 4 dt.year ++ "-" ++ padNum 2 dt.month ++ "-" ++ padNum 2 dt.day ++ "T" ++
  padNum 2 dt.hour ++ ":" ++ padNum 2 dt.minute ++ ":" ++ padNum 2 dt.second ++
  (if dt.microsecond ≠ 0 then "." ++ padNum 6 dt.microsecond else "") ++ "+00:00"

/-- `dt.isoformat().replace("+00:00", "Z")`. -/
def isoZ (dt : PyDatetime) : String :=
  pyReplace (isoformatUTC dt) "+00:00" "Z"

/-- Days since 1970-01-01 of a proleptic-Gregorian civil date. -/
def days_from_civil (y mo d : Int) : Int :=
  let y := if mo ≤ 2 then y - 1 else y
  let era := Int.fdiv y 400
  let yoe := y - era * 400
  let doy := Int.fdiv (153 * (if mo > 2 then mo - 3 else mo + 9) + 2) 5 + d - 1
  let doe := yoe * 365 + Int.fdiv yoe 4 - Int.fdiv yoe 100 + doy
  era * 146097 + doe - 719468

/-- Civil date (year, month, day) of a day count since 1970-01-01. -/
def civil_from_days (z : Int) : Int × Int × Int :=
  let z := z + 719468
  let era := Int.fdiv z 146097
  let doe := z - era * 146097
  let yoe := Int.fdiv (doe - Int.fdiv doe 1460 + Int.fdiv doe 36524 - Int.fdiv doe 146096) 365
  let y := yoe + era * 400
  let doy := doe - (365 * yoe + Int.fdiv yoe 4 - Int.fdiv yoe 100)
  let mp := Int.fdiv (5 * doy + 2) 153
  let d := doy - Int.fdiv (153 * mp + 2) 5 + 1
  let m := if mp < 10 then mp + 3 else mp - 9
  (if m ≤ 2 then y + 1 else y, m, d)

/-- Whole seconds since the epoch of an aware datetime (naive treated as
UTC; in the script every datetime reaching this point is aware). -/
def toEpochSeconds (dt : PyDatetime) : Int :=
  days_from_civil dt.year dt.month dt.day * 86400 +
    dt.hour * 3600 + dt.minute * 60 + dt.second - dt.tzOffset.getD 0

/-- `dt.astimezone(timezone.utc)` for an aware datetime. -/
def astimezoneUTC (dt : PyDatetime) : PyDatetime :=
  let secs := toEpochSeconds dt
  let days := Int.fdiv secs 86400
  let rem := secs - days * 86400
  let c := civil_from_days days
  ⟨c.1, c.2.1, c.2.2, Int.fdiv rem 3600, Int.fdiv (rem % 3600) 60, rem % 60,
   dt.microsecond, some 0⟩

/-! ### `to_iso_datetime` (fetch_podcast.py lines 48-64)

`dateutil.parser.parse` is an external best-effort parser; it is modelled
as a parameter `dparse : String → Option PyDatetime` (`none` standing for
the `ValueError`/`TypeError` the script catches).  `dateutil` can also
raise `OverflowError`, which the `except` clause of line 63 does not
catch; that escaping path is modelled by `to_iso_datetimeE` below, which
coincides with this function whenever the parser fails only with caught
errors (`to_iso_datetimeE_ok_lift`). -/

/-- `to_iso_datetime`: structured published components first, then
structured updated components (both through the raising `datetime`
constructor), then best-effort parsing of the raw published/updated
string (assuming UTC when naive), else `None`. -/
def to_iso_datetime (dparse : String → Option PyDatetime) (entry : Entry) :
    Except String (Option String) :=
  if truthyList entry.published_parsed then
    (datetimeUTC (entry.published_parsed.getD [])).map (fun dt => some (isoZ dt))
  else if truthyList entry.updated_parsed then
    (datetimeUTC (entry.updated_parsed.getD [])).map (fun dt => some (isoZ dt))
  else
    let raw := pyOrStr entry.published entry.updated
    if truthyStr raw then
      match dparse (raw.getD "") with
      | none => .ok none
      | some dt =>
        let dt := if dt.tzOffset.isNone then { dt with tzOffset := some 0 } else dt
        .ok (some (isoZ (astimezoneUTC dt)))
    else .ok none

/-! ### `strip_html` (fetch_podcast.py lines 67-72)

`BeautifulSoup(value, "html.parser")` + `get_text(" ", strip=True)` is
modelled behaviourally: text outside `<...>` tags forms the text nodes,
entities in text nodes are decoded by the parser, each node is stripped
and the non-empty ones joined with single spaces; `html.unescape` is then
applied once more.  The entity table is the subset the script's data can
contain (named `amp`/`lt`/`gt`/`quot` and numeric references). -/

def namedEntity : String → Option Char
  | "amp" => some '&'
  | "lt" => some '<'
  | "gt" => some '>'
  | "quot" => some '"'
  | _ => none

/-- Read one entity reference after a `&`: the name/number up to `;`. -/
def takeEntity (l : List Char) : Option (Char × List Char) :=
  match l.dropWhile (fun c => c ≠ ';') with
  | ';' :: rest =>
    let name := l.takeWhile (fun c => c ≠ ';')
    match name with
    | '#' :: ds =>
      if !ds.isEmpty && ds.all Char.isDigit && natOfDigits ds < 1114112 then
        some (Char.ofNat (natOfDigits ds), rest)
      else none
    | _ => (namedEntity ⟨name⟩).map (fun c => (c, rest))
  | _ => none

/-- Entity decoding (fuel is the length of the remaining input). -/
def decodeEntAux : Nat → List Char → List Char
  | 0, l => l
  | _ + 1, [] => []
  | fuel + 1, '&' :: rest =>
    match takeEntity rest with
    | some (c, rest2) => c :: decodeEntAux fuel rest2
    | none => '&' :: decodeEntAux fuel rest
  | fuel + 1, c :: rest => c :: decodeEntAux fuel rest

/-- `html.unescape` (model, subset entity table). -/
def decodeEntities (s : String) : String :=
  ⟨decodeEntAux s.data.length s.data⟩

/-- Split into text nodes, dropping everything between `<` and `>`. -/
def splitTagsAux : List Char → Bool → List Char → List String
  | [], _, cur => [⟨cur.reverse⟩]
  | '<' :: rest, false, cur => String.mk cur.reverse :: splitTagsAux rest true []
  | '>' :: rest, true, _ => splitTagsAux rest false []
  | c :: rest, inTag, cur =>
    if inTag then splitTagsAux rest true cur else splitTagsAux rest false (c :: cur)

/-- `BeautifulSoup(s, "html.parser").get_text(" ", strip=True)` (model):
decoded text nodes, each stripped, empties dropped, joined with spaces. -/
def get_text (s : String) : String :=
  String.intercalate " "
    (((splitTagsAux s.data false []).map (fun t => pyStrip (decodeEntities t))).filter
      (fun t => !t.isEmpty))

/-- `strip_html`: empty string for falsy input, otherwise text extraction
followed by entity unescaping. -/
def strip_html (value : Option String) : String :=
  if truthyStr value then decodeEntities (get_text (value.getD "")) else ""

/-! ### `build_episode_id` (fetch_podcast.py lines 101-107) -/

/-- `build_episode_id`: the entry's truthy `id or guid` verbatim when
present, else the SHA-256 hex digest of
`title ++ "|" ++ (published or empty) ++ "|" ++ (audio_url or empty)`. -/
def build_episode_id (entry : Entry) (audio_url published : Option String) : String :=
  let guid := pyOrStr entry.id entry.guid
  if truthyStr guid then guid.getD ""
  else
    let title := entry.title.getD ""
    let base := title ++ "|" ++ published.getD "" ++ "|" ++ audio_url.getD ""
    sha256hex (utf8Bytes base)

/-! ### `extract_audio_url` (fetch_podcast.py lines 110-116) -/

/-- First enclosure with a truthy url. -/
def findAudio : List Enclosure → Option String
  | [] => none
  | enc :: rest => if truthyStr enc.url then enc.url else findAudio rest

/-- `extract_audio_url`: url of the first enclosure that has one. -/
def extract_audio_url (entry : Entry) : Option String :=
  findAudio (entry.enclosures.getD [])

/-! ### `normalize_entry` (fetch_podcast.py lines 119-132) -/

/-- The canonical Episode record of the output payload. -/
structure Episode where
  id : String
  title : String
  description : String
  published : Option String
  link : Option String
  audio_url : Option String
  duration : Option Int
deriving DecidableEq

/-- `normalize_entry`: one raw entry to one Episode; the only raising
sub-step is `to_iso_datetime`'s structured-components constructor. -/
def normalize_entry (dparse : String → Option PyDatetime) (entry : Entry) :
    Except String Episode :=
  match to_iso_datetime dparse entry with
  | .error e => .error e
  | .ok published =>
    let audio_url := extract_audio_url entry
    let description := strip_html (pyOrStr (pyOrStr entry.summary entry.description) (some ""))
    let duration := parse_duration entry.itunes_duration
    .ok { id := build_episode_id entry audio_url published
          title := pyStrip (entry.title.getD "")
          description := description
          published := published
          link := entry.link
          audio_url := audio_url
          duration := duration }

/-! ### Exception-aware normalizer model (totality analysis)

The definitions above scope Python's `str.isdigit`/`int` to ASCII digits
and collapse every failure of the external best-effort date parser into
the caught case; that is adequate for the functional claims but hides two
raising paths of the source:

* `value.isdigit()` (line 83) is true for any string of Unicode
  digit-property characters, while `int(value)` (line 84, outside any
  try) accepts only decimal digits — `int("²")` raises an uncaught
  `ValueError`.  The per-segment conversion at lines 88-91 sits inside a
  try catching `ValueError`, so only the whole-string branch raises.
* the `except (ValueError, TypeError)` at line 63 does not catch
  `dateutil`'s documented `OverflowError`, which therefore escapes
  `to_iso_datetime`.

The variants below make those paths explicit.  They are parameterized
over the Unicode tables — `digitp c` meaning `c` has the digit property
used by `str.isdigit`, `decval c` the decimal value accepted by `int`
(none = rejected) — and over the parser as
`dparseE : String → Except String (Option PyDatetime)` whose `.ok none`
is a caught `ValueError`/`TypeError` and whose `.error` is an uncaught
exception such as `OverflowError`.  Instantiated with the ASCII tables
and an always-caught parser they coincide with `parse_duration` and
`to_iso_datetime` (lemmas `parse_durationE_ascii` and
`to_iso_datetimeE_ok_lift` below). -/

/-- `str.isdigit()` over an arbitrary digit-property table. -/
def pyIsdigitE (digitp : Char → Bool) (s : String) : Bool :=
  !s.data.isEmpty && s.data.all digitp

/-- `int(s)` over an arbitrary decimal-value table: every character must
carry a decimal value, else `ValueError` (sign/whitespace forms cannot
reach the script's call sites, which only pass `isdigit` strings). -/
def pyIntE (decval : Char → Option Nat) (s : String) : Except String Int :=
  if s.data.isEmpty then .error "ValueError"
  else
    match s.data.mapM decval with
    | some ds => .ok ((ds.foldl (fun a d => a * 10 + d) 0 : Nat) : Int)
    | none => .error "ValueError"

/-- `parse_duration` with the raising `int` call of line 84 explicit: the
whole-string conversion is outside any try, the per-segment conversions
of lines 88-91 have their `ValueError` caught into null. -/
def parse_durationE (digitp : Char → Bool) (decval : Char → Option Nat) :
    Option DurVal → Except String (Option Int)
  | none => .ok none
  | some (.int n) => .ok (some n)
  | some (.str s) =>
    let v := pyStrip s
    if v.isEmpty then .ok none
    else if pyIsdigitE digitp v then
      match pyIntE decval v with
      | .error e => .error e
      | .ok n => .ok (some n)
    else
      let parts := (pySplit v ':').filter (pyIsdigitE digitp)
      if parts.isEmpty then .ok none
      else
        match parts.mapM (fun p => (pyIntE decval p).toOption) with
        | none => .ok none
        | some ps =>
          match ps with
          | [m, sec] => .ok (some (m * 60 + sec))
          | [h, m, sec] => .ok (some (h * 3600 + m * 60 + sec))
          | _ => .ok none

/-- `to_iso_datetime` with uncaught best-effort-parser errors explicit
(`.error` from `dparseE` models e.g. `OverflowError`, which the
`except (ValueError, TypeError)` of line 63 does not catch). -/
def to_iso_datetimeE (dparseE : String → Except String (Option PyDatetime))
    (entry : Entry) : Except String (Option String) :=
  if truthyList entry.published_parsed then
    (datetimeUTC (entry.published_parsed.getD [])).map (fun dt => some (isoZ dt))
  else if truthyList entry.updated_parsed then
    (datetimeUTC (entry.updated_parsed.getD [])).map (fun dt => some (isoZ dt))
  else
    let raw := pyOrStr entry.published entry.updated
    if truthyStr raw then
      match dparseE (raw.getD "") with
      | .error e => .error e
      | .ok none => .ok none
      | .ok (some dt) =>
        let dt := if dt.tzOffset.isNone then { dt with tzOffset := some 0 } else dt
        .ok (some (isoZ (astimezoneUTC dt)))
    else .ok none

/-- `normalize_entry` over the exception-aware sub-functions: the date
normalization (line 120) and the duration parse (line 123) are its only
raising sub-steps; `strip_html`, `build_episode_id` and
`extract_audio_url` are total. -/
def normalize_entryE (digitp : Char → Bool) (decval : Char → Option Nat)
    (dparseE : String → Except String (Option PyDatetime)) (entry : Entry) :
    Except String Episode :=
  match to_iso_datetimeE dparseE entry with
  | .error e => .error e
  | .ok published =>
    let audio_url := extract_audio_url entry
    let description := strip_html (pyOrStr (pyOrStr entry.summary entry.description) (some ""))
    match parse_durationE digitp decval entry.itunes_duration with
    | .error e => .error e
    | .ok duration =>
      .ok { id := build_episode_id entry audio_url published
            title := pyStrip (entry.title.getD "")
            description := description
            published := published
            link := entry.link
            audio_url := audio_url
            duration := duration }

/-! ### `sort_key` (fetch_podcast.py lines 153-160)

`datetime.fromisoformat` is modelled for the grammar of the strings
`to_iso_datetime` can produce (and `sort_key` feeds it):
`YYYY-MM-DDTHH:MM:SS[.fff|.ffffff]±HH:MM`; anything else counts as a parse
failure (key 0), matching the script's `except ValueError` fallback.
`timestamp()` is modelled exactly as integer microseconds since the epoch
(the comparison key, scaled; `0` stays `0`). -/

def parseDigits (n : Nat) (l : List Char) : Option (Nat × List Char) :=
  let ds := l.take n
  if ds.length = n ∧ ds.all Char.isDigit then some (natOfDigits ds, l.drop n)
  else none

/-- Parse the trailing UTC offset `±HH:MM` (must end the string). -/
def parseOffset : List Char → Option Int
  | '+' :: l =>
    match parseDigits 2 l with
    | some (h, ':' :: l2) =>
      match parseDigits 2 l2 with
      | some (m, []) => if h * 60 + m < 1440 then some ((h * 60 + m) * 60) else none
      | _ => none
    | _ => none
  | '-' :: l =>
    match parseDigits 2 l with
    | some (h, ':' :: l2) =>
      match parseDigits 2 l2 with
      | some (m, []) => if h * 60 + m < 1440 then some (-(((h * 60 + m) : Int) * 60)) else none
      | _ => none
    | _ => none
  | _ => none

/-- Parse the optional fractional-second part plus the offset. -/
def parseFracOffset : List Char → Option (Int × Int)
  | '.' :: rest =>
    let ds := rest.takeWhile Char.isDigit
    let rest2 := rest.dropWhile Char.isDigit
    if ds.length = 3 then (parseOffset rest2).map (fun o => ((natOfDigits ds * 1000 : Nat), o))
    else if ds.length = 6 then (parseOffset rest2).map (fun o => ((natOfDigits ds : Nat), o))
    else none
  | l => (parseOffset l).map (fun o => (0, o))

/-- `datetime.fromisoformat` (model; grammar restricted as above). -/
def fromisoformat (s : String) : Option PyDatetime :=
  match s.data with
  | y1 :: y2 :: y3 :: y4 :: '-' :: m1 :: m2 :: '-' :: d1 :: d2 :: 'T' ::
      h1 :: h2 :: ':' :: n1 :: n2 :: ':' :: s1 :: s2 :: rest =>
    if [y1, y2, y3, y4, m1, m2, d1, d2, h1, h2, n1, n2, s1, s2].all Char.isDigit then
      let y : Int := natOfDigits [y1, y2, y3, y4]
      let mo : Int := natOfDigits [m1, m2]
      let d : Int := natOfDigits [d1, d2]
      let h : Int := natOfDigits [h1, h2]
      let mi : Int := natOfDigits [n1, n2]
      let sec : Int := natOfDigits [s1, s2]
      match parseFracOffset rest with
      | some (micro, off) =>
        if validDatetime y mo d h mi sec then some ⟨y, mo, d, h, mi, sec, micro, some off⟩
        else none
      | none => none
    else none
  | _ => none

/-- `dt.timestamp()` as exact integer microseconds since the epoch. -/
def timestampMicros (dt : PyDatetime) : Int :=
  toEpochSeconds dt * 1000000 + dt.microsecond

/-- `sort_key`: 0 for falsy `published`, 0 when
`fromisoformat(published.replace("Z", "+00:00"))` fails, else the
timestamp. -/
def sort_key (ep : Episode) : Int :=
  match ep.published with
  | none => 0
  | some p =>
    if p.isEmpty then 0
    else
      match fromisoformat (pyReplace p "Z" "+00:00") with
      | none => 0
      | some dt => timestampMicros dt

/-! ### The episode pipeline of `main` (fetch_podcast.py lines 141-182) -/

/-- `episodes[:n]` for an arbitrary Python slice bound. -/
def pySlice (l : List Episode) (n : Int) : List Episode :=
  if 0 ≤ n then l.take n.toNat else l.take ((l.length : Int) + n).toNat

/-- `episodes.sort(key=sort_key, reverse=True)` comparison: `a` may sit
before `b` iff its key is no smaller (stable descending order). -/
def epLE (a b : Episode) : Bool :=
  decide (sort_key b ≤ sort_key a)

/-- Line 146: `[normalize_entry(entry) for entry in feed.entries]` —
the first raising normalization aborts the run. -/
def candidate_episodes (dparse : String → Option PyDatetime) (entries : List Entry) :
    Except String (List Episode) :=
  entries.mapM (normalize_entry dparse)

/-- Lines 146-151: normalize all entries, truncate to the limit when one
is configured, then drop episodes with a falsy title. -/
def pipeline_prefilter (dparse : String → Option PyDatetime) (entries : List Entry)
    (limit : Option Int) : Except String (List Episode) :=
  match candidate_episodes dparse entries with
  | .error e => .error e
  | .ok eps =>
    let eps := match limit with
      | none => eps
      | some n => pySlice eps n
    .ok (eps.filter (fun ep => !ep.title.isEmpty))

/-- Lines 146-162: the full episode list of the payload (stable sort by
`sort_key` descending after truncation and filtering). -/
def build_episodes (dparse : String → Option PyDatetime) (entries : List Entry)
    (limit : Option Int) : Except String (List Episode) :=
  match pipeline_prefilter dparse entries limit with
  | .error e => .error e
  | .ok eps => .ok (eps.mergeSort epLE)

/-! ### `main` as an event trace (fetch_podcast.py lines 135-182)

The fetch, and the write with directory creation, are external I/O;
`mainRun` records them as events.  The fetch outcome is a parameter
(`Except` error = `requests` transport error or `raise_for_status`), the
clock a parameter `now`.  A `.error` result models the uncaught exception
terminating the process with nonzero status; `.ok n` models the success
path printing the count `n` and exiting 0. -/

structure Feed where
  title : Option String
  entries : List Entry
deriving DecidableEq

structure Args where
  rss_url : String
  out : String
  limit : Option Int
deriving DecidableEq

structure Podcast where
  title : String
  source_rss : String
  generated_at : String
deriving DecidableEq

structure Payload where
  podcast : Podcast
  episodes : List Episode
deriving DecidableEq

inductive Event where
  | fetchReq (url : String)
  | write (path : String) (payload : Payload)
deriving DecidableEq

/-- The run of `main`, given the modelled fetch outcome. -/
def mainRun (dparse : String → Option PyDatetime) (args : Args) (now : String)
    (fetchResult : Except String Feed) : List Event × Except String Nat :=
  match fetchResult with
  | .error e => ([.fetchReq args.rss_url], .error e)
  | .ok feed =>
    match build_episodes dparse feed.entries args.limit with
    | .error e => ([.fetchReq args.rss_url], .error e)
    | .ok episodes =>
      let payload : Payload :=
        { podcast := { title := (pyOrStr feed.title (some "Podcast")).getD ""
                       source_rss := args.rss_url
                       generated_at := now }
          episodes := episodes }
      ([.fetchReq args.rss_url, .write args.out payload], .ok episodes.length)

/-- Is an `Except` a success? -/
def isOkB {α : Type} : Except String α → Bool
  | .ok _ => true
  | .error _ => false

/-! ### Concrete data for examples and witnesses -/

/-- A trivial best-effort parser model: every raw string fails. -/
def dparse0 : String → Option PyDatetime := fun _ => none

/-- An entry with no fields at all: its title normalizes to `""`. -/
def entUntitled : Entry := {}

/-- An entry whose title normalizes to `"B"`. -/
def entTitledB : Entry := { title := some "B" }

/-- An entry with a falsy `id` but a truthy `guid`. -/
def entGuid : Entry := { id := some "", guid := some "G" }

/-- An entry with only structured updated components. -/
def entUpdOnly : Entry := { updated_parsed := some [2024, 1, 2, 3, 4, 5] }

/-- An entry whose structured published components are out of range
(month 0). -/
def entBadStruct : Entry := { published_parsed := some [2024, 0, 1, 0, 0, 0] }

/-- An entry carrying a negative integer duration. -/
def entNegDur : Entry := { itunes_duration := some (DurVal.int (-5)) }

/-- An empty feed. -/
def feedEmpty : Feed := { title := none, entries := [] }

/-- A concrete invocation. -/
def argsEx : Args := { rss_url := "u", out := "o", limit := none }

/-- The payload `main` assembles for `feedEmpty` under `argsEx` at time
`"t"`. -/
def payloadEmpty : Payload :=
  { podcast := { title := "Podcast", source_rss := "u", generated_at := "t" }
    episodes := [] }

/-- An episode without a published date. -/
def epNone : Episode :=
  { id := "i", title := "t", description := "", published := none,
    link := none, audio_url := none, duration := none }

/-- The ASCII fragment of Python's decimal-value table for `int`:
`'²'` (and every other non-decimal digit-property character) is
rejected, as `int` rejects it. -/
def decvalAscii : Char → Option Nat :=
  fun c => if c.isDigit then some (c.toNat - 48) else none

/-- A digit-property table marking `'²'` (superscript two) a digit, as
`str.isdigit` does. -/
def digitpSup : Char → Bool :=
  fun c => c.isDigit || c = '²'

/-- An exception-aware parser model in which every raw string fails with
a caught error. -/
def dparseE0 : String → Except String (Option PyDatetime) := fun _ => .ok none

/-- An exception-aware parser model raising an uncaught `OverflowError`
on every raw string. -/
def dparseOverflow : String → Except String (Option PyDatetime) :=
  fun _ => .error "OverflowError"

/-- An entry whose raw duration is the superscript-two string. -/
def entSupDur : Entry := { itunes_duration := some (DurVal.str "²") }

/-- An entry with only a raw published string (an overflowing date). -/
def entRawOnly : Entry := { published := some "292277026596-12-04" }

end FetchPodcast

namespace FetchPodcast

/-! ## Auxiliary lemmas -/

theorem epLE_trans (a b c : Episode) : epLE a b → epLE b c → epLE a c := by
  simp only [epLE, decide_eq_true_eq]
  omega

theorem epLE_total (a b : Episode) : epLE a b || epLE b a := by
  simp only [epLE, Bool.or_eq_true, decide_eq_true_eq]
  omega

/-- SHA-256 model sanity: NIST vector for the empty message. -/
theorem sha256hex_nist_empty :
    sha256hex [] = "e3b0c44298fc1c149afbf4c8996fb92427ae41e4649b934ca495991b7852b855" := by
  rfl

/-- SHA-256 model sanity: NIST vector for "abc". -/
theorem sha256hex_nist_abc :
    sha256hex (utf8Bytes "abc") =
      "ba7816bf8f01cfea414140de5dae2223b00361a396177a9cb410ff61f20015ad" := by
  rfl

/-- The string path of `parse_duration` only produces non-negative values
(all of them are built from decimal digit values). -/
theorem parse_duration_str_nonneg (s : String) (n : Int)
    (h : parse_duration (some (.str s)) = some n) : 0 ≤ n := by
  simp only [parse_duration] at h
  by_cases h1 : (pyStrip s).isEmpty
  · simp [h1] at h
  · by_cases h2 : isdigitB (pyStrip s)
    · simp only [h1, h2, Bool.false_eq_true, if_false, if_true, Option.some.injEq] at h
      rw [← h]
      exact Int.natCast_nonneg _
    · by_cases h3 : ((pySplit (pyStrip s) ':').filter isdigitB).isEmpty
      · simp [h1, h2, h3] at h
      · simp only [h1, h2, h3, Bool.false_eq_true, if_false] at h
        split at h
        · rename_i m sec heq
          have hm : m ∈ [m, sec] := by simp
          have hs : sec ∈ [m, sec] := by simp
          rw [← heq] at hm hs
          obtain ⟨a, -, rfl⟩ := List.mem_map.mp hm
          obtain ⟨b, -, rfl⟩ := List.mem_map.mp hs
          cases h
          have := Int.natCast_nonneg (natOfDigits a.data)
          have := Int.natCast_nonneg (natOfDigits b.data)
          unfold pyIntDigits
          omega
        · rename_i hh mm sec heq
          have hh2 : hh ∈ [hh, mm, sec] := by simp
          have hm : mm ∈ [hh, mm, sec] := by simp
          have hs : sec ∈ [hh, mm, sec] := by simp
          rw [← heq] at hh2 hm hs
          obtain ⟨a, -, rfl⟩ := List.mem_map.mp hh2
          obtain ⟨b, -, rfl⟩ := List.mem_map.mp hm
          obtain ⟨c, -, rfl⟩ := List.mem_map.mp hs
          cases h
          have := Int.natCast_nonneg (natOfDigits a.data)
          have := Int.natCast_nonneg (natOfDigits b.data)
          have := Int.natCast_nonneg (natOfDigits c.data)
          unfold pyIntDigits
          omega
        · exact absurd h (by simp)

/-- On all-decimal character lists the ASCII decimal table never
rejects. -/
theorem mapM_decvalAscii (l : List Char) (h : l.all Char.isDigit = true) :
    l.mapM decvalAscii = some (l.map (fun c => c.toNat - 48)) := by
  induction l with
  | nil => rfl
  | cons c rest ih =>
    simp only [List.all_cons, Bool.and_eq_true] at h
    rw [List.mapM_cons, ih h.2]
    simp [decvalAscii, h.1]

/-- On `isdigit` strings the exception-aware `int` agrees with the ASCII
model and never raises. -/
theorem pyIntE_ascii (s : String) (h : isdigitB s = true) :
    pyIntE decvalAscii s = .ok (pyIntDigits s) := by
  unfold isdigitB at h
  simp only [Bool.and_eq_true, Bool.not_eq_true', List.isEmpty_eq_false_iff_exists_mem] at h
  unfold pyIntE
  rw [if_neg (by simp [List.isEmpty_iff]; intro he; rw [he] at h; simp at h)]
  rw [mapM_decvalAscii s.data h.2]
  dsimp only
  rw [List.foldl_map]
  rfl

/-- On lists of `isdigit` strings the caught per-segment conversions
agree with the ASCII model. -/
theorem mapM_pyIntE_ascii (l : List String) (h : ∀ p ∈ l, isdigitB p = true) :
    l.mapM (fun p => (pyIntE decvalAscii p).toOption) = some (l.map pyIntDigits) := by
  induction l with
  | nil => rfl
  | cons p rest ih =>
    rw [List.mapM_cons, pyIntE_ascii p (h p (by simp))]
    rw [ih (fun q hq => h q (by simp [hq]))]
    rfl

/-- Instantiated with the ASCII tables, the exception-aware duration
parser is the total ASCII one: no string in its domain reaches the
raising `int` call. -/
theorem parse_durationE_ascii (dv : Option DurVal) :
    parse_durationE Char.isDigit decvalAscii dv = .ok (parse_duration dv) := by
  match dv with
  | none => rfl
  | some (.int n) => rfl
  | some (.str s) =>
    have hdig : pyIsdigitE Char.isDigit = isdigitB := rfl
    simp only [parse_durationE, parse_duration, hdig]
    by_cases h1 : (pyStrip s).isEmpty
    · simp [h1]
    · by_cases h2 : isdigitB (pyStrip s)
      · simp only [h1, h2, Bool.false_eq_true, if_false, if_true]
        rw [pyIntE_ascii (pyStrip s) h2]
      · simp only [h1, h2, Bool.false_eq_true, if_false]
        by_cases h3 : ((pySplit (pyStrip s) ':').filter isdigitB).isEmpty
        · simp [h3]
        · simp only [h3, Bool.false_eq_true, if_false]
          rw [mapM_pyIntE_ascii _ (fun p hp => (List.mem_filter.mp hp).2)]
          dsimp only
          generalize (pySplit (pyStrip s) ':').filter isdigitB = parts
          match List.map pyIntDigits parts with
          | [] => rfl
          | [a] => rfl
          | [a, b] => rfl
          | [a, b, c] => rfl
          | a :: b :: c :: d :: rest => rfl

/-- Instantiated with a parser whose failures are all caught, the
exception-aware date normalization is the original one. -/
theorem to_iso_datetimeE_ok_lift (dparse : String → Option PyDatetime) (e : Entry) :
    to_iso_datetimeE (fun s => .ok (dparse s)) e = to_iso_datetime dparse e := by
  unfold to_iso_datetimeE to_iso_datetime
  by_cases h1 : truthyList e.published_parsed
  · simp [h1]
  · by_cases h2 : truthyList e.updated_parsed
    · simp [h1, h2]
    · by_cases h3 : truthyStr (pyOrStr e.published e.updated)
      · simp only [h1, h2, h3, Bool.false_eq_true, if_false, if_true]
        cases dparse ((pyOrStr e.published e.updated).getD "") <;> rfl
      · simp [h1, h2, h3]

/-! ## Claim theorems -/

/-- C5: `parse_duration` returns null for absent input; returns an integer
input as-is; trims a string input and returns null if empty; parses an
all-digits string as seconds; otherwise splits on `:`, keeps only
purely-numeric segments, returns null if none remain, interprets exactly
2 segments as minutes*60+seconds, exactly 3 as
hours*3600+minutes*60+seconds, and any other segment count as null; with
the four spec examples. -/
theorem c5_parse_duration_spec :
    parse_duration none = none ∧
    (∀ n : Int, parse_duration (some (.int n)) = some n) ∧
    (∀ s, (pyStrip s).isEmpty = true → parse_duration (some (.str s)) = none) ∧
    (∀ s, (pyStrip s).isEmpty = false → isdigitB (pyStrip s) = true →
        parse_duration (some (.str s)) = some (pyIntDigits (pyStrip s))) ∧
    (∀ s, (pyStrip s).isEmpty = false → isdigitB (pyStrip s) = false →
        ((pySplit (pyStrip s) ':').filter isdigitB = [] →
          parse_duration (some (.str s)) = none) ∧
        (∀ a b, (pySplit (pyStrip s) ':').filter isdigitB = [a, b] →
          parse_duration (some (.str s)) = some (pyIntDigits a * 60 + pyIntDigits b)) ∧
        (∀ a b c, (pySplit (pyStrip s) ':').filter isdigitB = [a, b, c] →
          parse_duration (some (.str s)) =
            some (pyIntDigits a * 3600 + pyIntDigits b * 60 + pyIntDigits c)) ∧
        (∀ l, (pySplit (pyStrip s) ':').filter isdigitB = l → l ≠ [] →
          l.length ≠ 2 → l.length ≠ 3 → parse_duration (some (.str s)) = none)) ∧
    parse_duration (some (.str "01:02:03")) = some 3723 ∧
    parse_duration (some (.str "90")) = some 90 ∧
    parse_duration (some (.str "")) = none ∧
    parse_duration (some (.str "abc")) = none := by
  refine ⟨rfl, fun n => rfl, ?_, ?_, ?_, rfl, rfl, rfl, rfl⟩
  · intro s h
    unfold parse_duration
    simp [h]
  · intro s h1 h2
    unfold parse_duration
    simp [h1, h2]
  · intro s h1 h2
    refine ⟨?_, ?_, ?_, ?_⟩
    · intro hp
      unfold parse_duration
      simp [h1, h2, hp]
    · intro a b hp
      unfold parse_duration
      simp [h1, h2, hp]
    · intro a b c hp
      unfold parse_duration
      simp [h1, h2, hp]
    · intro l hp hne hl2 hl3
      unfold parse_duration
      simp only [h1, h2, hp, Bool.false_eq_true, if_false, List.isEmpty_iff]
      rw [if_neg hne]
      match l, hne, hl2, hl3 with
      | [a], _, _, _ => rfl
      | a :: b :: c :: d :: rest, _, _, _ => rfl

/-- C5 witness: the two-segment branch applied at `"1:2:xx"`. -/
theorem c5_witness :
    parse_duration (some (.str "1:2:xx")) = some (pyIntDigits "1" * 60 + pyIntDigits "2") :=
  (c5_parse_duration_spec.2.2.2.2.1 "1:2:xx" (by decide) (by decide)).2.1 "1" "2" (by decide)

/-- C7 counterexample: the claim says the duration is always null or
non-negative, but an entry whose raw duration is the integer `-5`
normalizes to an Episode with duration `-5 < 0`. -/
theorem c7_counterexample :
    (normalize_entry dparse0 entNegDur).map Episode.duration = .ok (some (-5)) ∧
    (-5 : Int) < 0 := by
  exact ⟨rfl, by decide⟩

/-- C7 (amended): the Episode duration is null or an integer; it is
non-negative whenever the raw duration metadata is absent or a string,
while an integer raw duration is returned as-is (possibly negative). -/
theorem c7_duration_amended :
    ∀ dparse e ep, normalize_entry dparse e = .ok ep →
      ep.duration = parse_duration e.itunes_duration ∧
      (∀ n, ep.duration = some n → 0 ≤ n ∨ e.itunes_duration = some (.int n)) := by
  intro dparse e ep h
  unfold normalize_entry at h
  split at h
  · cases h
  · cases h
    refine ⟨rfl, fun n hn => ?_⟩
    simp only at hn
    match hdur : e.itunes_duration with
    | none => rw [hdur] at hn; cases hn
    | some (.int m) =>
      rw [hdur] at hn
      unfold parse_duration at hn
      cases hn
      exact Or.inr rfl
    | some (.str s) =>
      rw [hdur] at hn
      exact Or.inl (parse_duration_str_nonneg s n hn)

/-- C7 witness: the amended theorem applied to the counterexample entry. -/
theorem c7_witness :
    (some (-5 : Int) : Option Int) = parse_duration entNegDur.itunes_duration :=
  (c7_duration_amended dparse0 entNegDur
    { id := build_episode_id entNegDur none none, title := "", description := "",
      published := none, link := none, audio_url := none, duration := some (-5) }
    rfl).1

/-- C9: `strip_html` returns the empty string for absent or empty input,
and otherwise the visible text of the parsed HTML (tags removed, text
joined with single spaces, trimmed) with entities decoded; in particular
on the spec's example. -/
theorem c9_strip_html_spec :
    strip_html none = "" ∧
    strip_html (some "") = "" ∧
    (∀ s, s ≠ "" → strip_html (some s) = decodeEntities (get_text s)) ∧
    strip_html (some "<p>Hi &amp; bye</p>") = "Hi & bye" := by
  refine ⟨rfl, rfl, ?_, by rfl⟩
  intro s h
  unfold strip_html truthyStr
  simp [String.isEmpty_iff, h]

/-- C9 witness: the generic branch applied at a concrete string. -/
theorem c9_witness :
    strip_html (some "<b>x</b>") = decodeEntities (get_text "<b>x</b>") :=
  c9_strip_html_spec.2.2.1 "<b>x</b>" (by decide)

/-- C2: an entry with a truthy id/guid gets that string verbatim as its
Episode id; otherwise the id is the SHA-256 hex digest of the UTF-8 bytes
of title, published (or empty) and audio_url (or empty) joined with `|`,
so identical triples yield identical fallback ids. -/
theorem c2_episode_id_spec :
    (∀ e a p, truthyStr (pyOrStr e.id e.guid) = true →
        build_episode_id e a p = (pyOrStr e.id e.guid).getD "") ∧
    (∀ e a p, truthyStr (pyOrStr e.id e.guid) = false →
        build_episode_id e a p =
          sha256hex (utf8Bytes (e.title.getD "" ++ "|" ++ p.getD "" ++ "|" ++ a.getD ""))) ∧
    (∀ e1 e2 a p, truthyStr (pyOrStr e1.id e1.guid) = false →
        truthyStr (pyOrStr e2.id e2.guid) = false →
        e1.title.getD "" = e2.title.getD "" →
        build_episode_id e1 a p = build_episode_id e2 a p) := by
  refine ⟨?_, ?_, ?_⟩
  · intro e a p h
    unfold build_episode_id
    simp [h]
  · intro e a p h
    unfold build_episode_id
    simp [h]
  · intro e1 e2 a p h1 h2 ht
    unfold build_episode_id
    simp [h1, h2, ht]

/-- C2 witness: verbatim branch at an entry whose `id` is falsy and whose
`guid` is `"G"`. -/
theorem c2_witness :
    build_episode_id entGuid none none = (pyOrStr entGuid.id entGuid.guid).getD "" :=
  c2_episode_id_spec.1 entGuid none none (by decide)

/-- C1: with a configured maximum count n, the candidate episode list is
truncated to its n leading elements before the empty-title filter (and
then stably sorted); in particular the feed normalizing to titles
`["", "B"]` with limit 1 produces an empty episode list. -/
theorem c1_limit_before_filter :
    (∀ dparse entries (n : Nat) eps, candidate_episodes dparse entries = .ok eps →
        build_episodes dparse entries (some (n : Int)) =
          .ok (((eps.take n).filter (fun ep => !ep.title.isEmpty)).mergeSort epLE)) ∧
    build_episodes dparse0 [entUntitled, entTitledB] (some 1) = .ok [] := by
  constructor
  · intro dparse entries n eps h
    unfold build_episodes pipeline_prefilter
    rw [h]
    simp [pySlice]
  · unfold build_episodes
    have h : pipeline_prefilter dparse0 [entUntitled, entTitledB] (some 1) = .ok [] := rfl
    rw [h]
    simp

/-- C1 witness: the general branch applied to the empty feed with
limit 1. -/
theorem c1_witness :
    build_episodes dparse0 [] (some (1 : Int)) =
      .ok ((((([] : List Episode)).take 1).filter (fun ep => !ep.title.isEmpty)).mergeSort epLE) :=
  c1_limit_before_filter.1 dparse0 [] 1 [] rfl

/-- C10: a configured limit of 0 empties the final list for every feed,
and a negative limit -k keeps all but the last k candidates (Python slice
semantics) rather than any number of leading elements. -/
theorem c10_limit_edge_cases :
    (∀ dparse entries eps, candidate_episodes dparse entries = .ok eps →
        build_episodes dparse entries (some 0) = .ok []) ∧
    (∀ (eps : List Episode) (k : Nat), 0 < k →
        pySlice eps (-(k : Int)) = eps.take (eps.length - k)) ∧
    (∀ dparse entries eps (k : Nat), 0 < k →
        candidate_episodes dparse entries = .ok eps →
        build_episodes dparse entries (some (-(k : Int))) =
          .ok (((eps.take (eps.length - k)).filter (fun ep => !ep.title.isEmpty)).mergeSort epLE)) := by
  have hslice : ∀ (eps : List Episode) (k : Nat), 0 < k →
      pySlice eps (-(k : Int)) = eps.take (eps.length - k) := by
    intro eps k hk
    unfold pySlice
    rw [if_neg (by omega)]
    congr 1
    omega
  refine ⟨?_, hslice, ?_⟩
  · intro dparse entries eps h
    unfold build_episodes pipeline_prefilter
    rw [h]
    simp [pySlice]
  · intro dparse entries eps k hk h
    unfold build_episodes pipeline_prefilter
    rw [h]
    simp only [hslice eps k hk]

/-- C10 witness: the limit-0 branch at the empty feed, and the slice
lemma at a two-element list with k = 1. -/
theorem c10_witness :
    build_episodes dparse0 [] (some 0) = .ok [] ∧
    pySlice [epNone, epNone] (-(1 : Int)) = [epNone, epNone].take (2 - 1) :=
  ⟨c10_limit_edge_cases.1 dparse0 [] [] rfl,
   c10_limit_edge_cases.2.1 [epNone, epNone] 1 (by decide)⟩

/-- C3: `to_iso_datetime` priority: structured published components first
(as UTC, ISO-8601 with Z), else structured updated components, else the
best-effort parse of the raw published/updated string (assumed UTC when
naive, converted to UTC with Z), else null; in particular an entry with
only `updated_parsed` yields that time as UTC ISO-8601 with `Z`. -/
theorem c3_date_priority :
    (∀ dparse e, truthyList e.published_parsed = true →
        to_iso_datetime dparse e =
          (datetimeUTC (e.published_parsed.getD [])).map (fun dt => some (isoZ dt))) ∧
    (∀ dparse e, truthyList e.published_parsed = false →
        truthyList e.updated_parsed = true →
        to_iso_datetime dparse e =
          (datetimeUTC (e.updated_parsed.getD [])).map (fun dt => some (isoZ dt))) ∧
    (∀ dparse e, truthyList e.published_parsed = false →
        truthyList e.updated_parsed = false →
        truthyStr (pyOrStr e.published e.updated) = true →
        to_iso_datetime dparse e =
          (match dparse ((pyOrStr e.published e.updated).getD "") with
           | none => .ok none
           | some dt =>
             .ok (some (isoZ (astimezoneUTC
               (if dt.tzOffset.isNone then { dt with tzOffset := some 0 } else dt)))))) ∧
    (∀ dparse e, truthyList e.published_parsed = false →
        truthyList e.updated_parsed = false →
        truthyStr (pyOrStr e.published e.updated) = false →
        to_iso_datetime dparse e = .ok none) ∧
    to_iso_datetime dparse0 entUpdOnly = .ok (some "2024-01-02T03:04:05Z") := by
  refine ⟨?_, ?_, ?_, ?_, by rfl⟩
  · intro dparse e h
    unfold to_iso_datetime
    simp [h]
  · intro dparse e h1 h2
    unfold to_iso_datetime
    simp [h1, h2]
  · intro dparse e h1 h2 h3
    unfold to_iso_datetime
    simp [h1, h2, h3]
  · intro dparse e h1 h2 h3
    unfold to_iso_datetime
    simp [h1, h2, h3]

/-- C3 witness: the updated-components branch applied at `entUpdOnly`. -/
theorem c3_witness :
    to_iso_datetime dparse0 entUpdOnly =
      (datetimeUTC (entUpdOnly.updated_parsed.getD [])).map (fun dt => some (isoZ dt)) :=
  c3_date_priority.2.1 dparse0 entUpdOnly (by decide) (by decide)

/-- C6 counterexample: the claim says every normalizer sub-function is
total even on malformed structured time components, but an entry whose
`published_parsed` has month 0 makes `to_iso_datetime` raise a
`ValueError` out of the uncovered `datetime` constructor, and it
propagates out of `normalize_entry`. -/
theorem c6_counterexample :
    to_iso_datetime dparse0 entBadStruct = .error "ValueError" ∧
    normalize_entry dparse0 entBadStruct = .error "ValueError" :=
  ⟨rfl, rfl⟩

/-- C6 (amended): `strip_html`, `build_episode_id` and
`extract_audio_url` are total, but the Entry Normalizer is not, and
`normalize_entry` raises exactly when `to_iso_datetime` or
`parse_duration` does (for every digit table and every parser model).
`to_iso_datetime` raises when the structured published/updated components
it selects do not form a valid datetime and when the best-effort
raw-date parser raises anything other than the caught
`ValueError`/`TypeError` — `OverflowError` escapes; `parse_duration`
raises `ValueError` on a trimmed string that passes `isdigit` but
contains a character `int` rejects, such as `"²"` (line 84 is outside
any try, unlike the caught per-segment conversions of lines 88-91). -/
theorem c6_totality_amended :
    (∀ digitp decval dparseE e,
        isOkB (normalize_entryE digitp decval dparseE e) =
          (isOkB (to_iso_datetimeE dparseE e) &&
           isOkB (parse_durationE digitp decval e.itunes_duration))) ∧
    (∀ dparseE e,
        isOkB (to_iso_datetimeE dparseE e) = true ↔
          ((truthyList e.published_parsed = true →
              isOkB (datetimeUTC (e.published_parsed.getD [])) = true) ∧
           (truthyList e.published_parsed = false → truthyList e.updated_parsed = true →
              isOkB (datetimeUTC (e.updated_parsed.getD [])) = true) ∧
           (truthyList e.published_parsed = false → truthyList e.updated_parsed = false →
              truthyStr (pyOrStr e.published e.updated) = true →
              isOkB (dparseE ((pyOrStr e.published e.updated).getD "")) = true))) ∧
    parse_durationE digitpSup decvalAscii (some (.str "²")) = .error "ValueError" ∧
    normalize_entryE digitpSup decvalAscii dparseE0 entSupDur = .error "ValueError" ∧
    to_iso_datetimeE dparseOverflow entRawOnly = .error "OverflowError" ∧
    normalize_entryE digitpSup decvalAscii dparseOverflow entRawOnly =
      .error "OverflowError" := by
  refine ⟨?_, ?_, rfl, rfl, rfl, rfl⟩
  · intro digitp decval dparseE e
    unfold normalize_entryE
    cases hdt : to_iso_datetimeE dparseE e with
    | error e1 => simp [isOkB]
    | ok pub =>
      cases hdur : parse_durationE digitp decval e.itunes_duration with
      | error e2 => simp [isOkB, hdur]
      | ok dur => simp [isOkB, hdur]
  · intro dparseE e
    unfold to_iso_datetimeE
    by_cases h1 : truthyList e.published_parsed
    · simp only [h1, if_true, true_implies]
      cases hdt : datetimeUTC (e.published_parsed.getD []) <;>
        simp [isOkB, Except.map, h1]
    · simp only [h1, Bool.false_eq_true, if_false]
      by_cases h2 : truthyList e.updated_parsed
      · simp only [h2, if_true]
        cases hdt : datetimeUTC (e.updated_parsed.getD []) <;>
          simp [isOkB, Except.map, h1, h2]
      · simp only [h2, Bool.false_eq_true, if_false]
        by_cases h3 : truthyStr (pyOrStr e.published e.updated)
        · simp only [h3, if_true]
          cases hd : dparseE ((pyOrStr e.published e.updated).getD "") with
          | error e1 => simp [isOkB, h1, h2, h3, hd]
          | ok o => cases o <;> simp [isOkB, h1, h2, h3, hd]
        · simp [h3, isOkB, h1, h2]

/-- C6 witness: the exact characterization applied to a concrete entry
with valid structured updated components and a benign duration. -/
theorem c6_witness :
    isOkB (normalize_entryE digitpSup decvalAscii dparseE0 entUpdOnly) = true := by
  have h := c6_totality_amended
  rw [h.1 digitpSup decvalAscii dparseE0 entUpdOnly]
  rw [(h.2.1 dparseE0 entUpdOnly).mpr
    ⟨fun hp => absurd hp (by decide), fun _ _ => by decide,
     fun _ hupd _ => absurd hupd (by decide)⟩]
  decide

/-- C8: when the fetch raises, the run terminates with the error and the
event trace holds no write at all; and any write event that does occur
carries the fully assembled payload of a successful fetch, at the
configured output path. -/
theorem c8_no_write_on_fetch_failure :
    (∀ dparse args now err,
        mainRun dparse args now (.error err) = ([.fetchReq args.rss_url], .error err)) ∧
    (∀ dparse args now fetchResult path p,
        Event.write path p ∈ (mainRun dparse args now fetchResult).1 →
        ∃ feed, fetchResult = .ok feed ∧ path = args.out ∧
          build_episodes dparse feed.entries args.limit = .ok p.episodes ∧
          p.podcast = { title := (pyOrStr feed.title (some "Podcast")).getD ""
                        source_rss := args.rss_url
                        generated_at := now }) := by
  constructor
  · intro dparse args now err
    rfl
  · intro dparse args now fetchResult path p hmem
    cases fetchResult with
    | error e => simp [mainRun] at hmem
    | ok feed =>
      refine ⟨feed, rfl, ?_⟩
      unfold mainRun at hmem
      dsimp only at hmem
      cases heps : build_episodes dparse feed.entries args.limit with
      | error e =>
        rw [heps] at hmem
        simp at hmem
      | ok eps =>
        rw [heps] at hmem
        simp only [List.mem_cons, List.not_mem_nil, or_false] at hmem
        rcases hmem with h | h
        · exact absurd h (by simp)
        · injection h with h1 h2
          subst h1
          subst h2
          exact ⟨rfl, rfl, rfl⟩

/-- C8 witness: the fetch-failure branch at a concrete invocation, and the
write-event branch at a successful empty-feed run. -/
theorem c8_witness :
    mainRun dparse0 argsEx "t" (.error "HTTPError") =
      ([.fetchReq "u"], .error "HTTPError") ∧
    ∃ feed, (.ok feedEmpty : Except String Feed) = .ok feed ∧ "o" = argsEx.out ∧
      build_episodes dparse0 feed.entries argsEx.limit = .ok payloadEmpty.episodes ∧
      payloadEmpty.podcast = { title := (pyOrStr feed.title (some "Podcast")).getD ""
                               source_rss := argsEx.rss_url
                               generated_at := "t" } :=
  ⟨c8_no_write_on_fetch_failure.1 dparse0 argsEx "t" "HTTPError",
   c8_no_write_on_fetch_failure.2 dparse0 argsEx "t" (.ok feedEmpty) "o" payloadEmpty
     (by
       have hb : build_episodes dparse0 feedEmpty.entries argsEx.limit = .ok [] := by
         unfold build_episodes
         have hp : pipeline_prefilter dparse0 feedEmpty.entries argsEx.limit = .ok [] := rfl
         rw [hp]
         simp
       unfold mainRun
       dsimp only
       rw [hb]
       simp [payloadEmpty, argsEx, feedEmpty, pyOrStr, truthyStr])⟩

/-- C4: the sort key is 0 for an absent, empty or unparseable published
value and the timestamp otherwise; the final list is ordered by key
descending; it is a permutation of the filtered list (nothing excluded);
and any correctly-ordered pair of the filtered list — in particular any
pair with equal keys, in feed order — survives into the sorted list
(stability). -/
theorem c4_sort_spec :
    (∀ ep, ep.published = none → sort_key ep = 0) ∧
    (∀ ep p, ep.published = some p → p.isEmpty = false →
        fromisoformat (pyReplace p "Z" "+00:00") = none → sort_key ep = 0) ∧
    (∀ ep p dt, ep.published = some p → p.isEmpty = false →
        fromisoformat (pyReplace p "Z" "+00:00") = some dt →
        sort_key ep = timestampMicros dt) ∧
    (∀ dparse entries limit eps, build_episodes dparse entries limit = .ok eps →
        eps.Pairwise (fun a b => sort_key b ≤ sort_key a)) ∧
    (∀ dparse entries limit pre eps,
        pipeline_prefilter dparse entries limit = .ok pre →
        build_episodes dparse entries limit = .ok eps →
        eps.Perm pre ∧
        (∀ a b, List.Sublist [a, b] pre → sort_key b ≤ sort_key a →
          List.Sublist [a, b] eps)) := by
  refine ⟨?_, ?_, ?_, ?_, ?_⟩
  · intro ep h
    unfold sort_key
    rw [h]
  · intro ep p h1 h2 h3
    unfold sort_key
    rw [h1]
    simp [h2, h3]
  · intro ep p dt h1 h2 h3
    unfold sort_key
    rw [h1]
    simp [h2, h3]
  · intro dparse entries limit eps h
    unfold build_episodes at h
    split at h
    · cases h
    · rename_i pre hpre
      cases h
      have hp := @List.sorted_mergeSort Episode epLE epLE_trans epLE_total pre
      exact hp.imp (fun hab => by simpa [epLE] using hab)
  · intro dparse entries limit pre eps hpre h
    unfold build_episodes at h
    rw [hpre] at h
    cases h
    refine ⟨List.mergeSort_perm pre epLE, ?_⟩
    intro a b hsub hle
    exact List.pair_sublist_mergeSort epLE_trans epLE_total
      (by simpa [epLE] using hle) hsub

/-- C4 witness: the absent-date branch at a concrete episode, and
sortedness of a concrete successful build. -/
theorem c4_witness :
    sort_key epNone = 0 ∧
    ∃ eps, build_episodes dparse0 [entUpdOnly, entTitledB] none = .ok eps ∧
      eps.Pairwise (fun a b => sort_key b ≤ sort_key a) :=
  ⟨c4_sort_spec.1 epNone rfl,
   ⟨_, rfl, c4_sort_spec.2.2.2.1 dparse0 [entUpdOnly, entTitledB] none _ rfl⟩⟩

end FetchPodcast
